import Mathlib

/-!
Shallow embedding of the interactive code-execution server in src/app.py
(himanshusingla123/compiler).  Pure data is modelled directly; the stateful
handlers become functions from the session registry plus an environment
describing the nondeterministic outside world (process exit observations,
lines drained from the output queue during timed windows) to a response,
an updated registry, and a trace of side effects (files cleaned, close
sentinels sent to the input feeder, compile commands run, signals sent).
-/

/-! ## String helpers mirroring Python primitives -/

/-- Boolean prefix test on character lists. -/
def isPrefixB : List Char → List Char → Bool
  | [], _ => true
  | _ :: _, [] => false
  | a :: as, b :: bs => a == b && isPrefixB as bs

/-- Boolean substring containment: Python's needle in hay. -/
def hasSub (needle : List Char) : List Char → Bool
  | [] => needle.isEmpty
  | c :: rest => isPrefixB needle (c :: rest) || hasSub needle rest

/-- Python str.lower. -/
def pyLower (s : String) : String :=
  String.mk (s.toList.map Char.toLower)

/-- Python str.rstrip: drop trailing whitespace. -/
def pyRstrip (s : String) : String :=
  String.mk ((s.toList.reverse.dropWhile Char.isWhitespace).reverse)

/-- The fixed keyword set of the waiting-for-input heuristic (app.py lines 102 and 405). -/
def inputKeywords : List String := ["input", "enter", ":", "?"]

/-- The heuristic itself: any keyword is a substring of the lowercased line. -/
def keywordHit (line : String) : Bool :=
  inputKeywords.any fun k => hasSub k.toList (pyLower line).toList

/-! ## Data model -/

/-- Which stream an output-queue entry came from. -/
inductive StreamTag
  | out
  | err
deriving DecidableEq

/-- A tagged entry of the per-session output queue. -/
structure Msg where
  tag : StreamTag
  text : String
deriving DecidableEq

def isOut (m : Msg) : Bool :=
  match m.tag with
  | StreamTag.out => true
  | StreamTag.err => false

/-- The stdout texts of a drained message list, in order. -/
def outLines (msgs : List Msg) : List String :=
  (msgs.filter isOut).map Msg.text

/-- The stderr texts of a drained message list, in order. -/
def errLines (msgs : List Msg) : List String :=
  (msgs.filter fun m => !(isOut m)).map Msg.text

/-- ExecutionSession dataclass of app.py (queues are value lists here; the
input queue is traced through effects instead of stored). -/
structure ExecutionSession where
  session_id : String
  temp_files : List String
  outputQueue : List Msg
  is_waiting_for_input : Bool
  is_complete : Bool
  final_output : String
  error_output : String
deriving DecidableEq

/-- The process-wide execution_sessions dict, as an association list with
unique keys maintained by insert/remove. -/
abbrev Registry := List (String × ExecutionSession)

def lookupSession : Registry → String → Option ExecutionSession
  | [], _ => none
  | (k, s) :: rest, sid => if k = sid then some s else lookupSession rest sid

def removeSession : Registry → String → Registry
  | [], _ => []
  | (k, s) :: rest, sid =>
      if k = sid then removeSession rest sid else (k, s) :: removeSession rest sid

def updateSession : Registry → String → ExecutionSession → Registry
  | [], _, _ => []
  | (k, old) :: rest, sid, s =>
      if k = sid then (k, s) :: updateSession rest sid s
      else (k, old) :: updateSession rest sid s

def insertSession (reg : Registry) (sid : String) (s : ExecutionSession) : Registry :=
  (sid, s) :: removeSession reg sid

/-! ## Responses and effect traces -/

/-- The JSON responses of the handlers, by shape. -/
inductive Resp
  | failure (msg : String) (httpCode : Nat)
  | failureDetails (msg details : String) (httpCode : Nat)
  | completed (output errText : String)
  | runningStart (session_id output errText : String) (waiting_for_input : Bool)
  | runningStep (output errText : String) (waiting_for_input : Bool)
  | terminated
deriving DecidableEq

/-- Side effects performed by one handler call. -/
structure Effects where
  allocated : List String
  cleaned : List (List String)
  sentinels : List String
  inputsSent : List (String × String)
  compilesRun : List (List String)
  launches : List (List String)
  signals : List String
deriving DecidableEq

def noEffects : Effects := ⟨[], [], [], [], [], [], []⟩

/-- Result of one handler call: response, new registry, effect trace. -/
structure StepResult where
  resp : Resp
  reg : Registry
  eff : Effects
deriving DecidableEq

/-- Responses that report a finished session (status completed or terminated). -/
def respFinal : Resp → Bool
  | Resp.completed _ _ => true
  | Resp.terminated => true
  | _ => false

/-- Failure responses of the start handler (unsupported language, toolchain
missing, compile failure, launch failure). -/
def isFailureResp : Resp → Bool
  | Resp.failure _ _ => true
  | Resp.failureDetails _ _ _ => true
  | _ => false

/-- Is this response the ToolchainMissing report of app.py lines 206-209. -/
def isToolchainMissing : Resp → Bool
  | Resp.failureDetails m _ _ => m = "Compiler not found"
  | _ => false

/-- The compiler id chosen first by get_compile_command. -/
def primaryCompilerName (isWindows : Bool) (language : String) : String :=
  if language = "c" then (if isWindows then "gcc" else "clang")
  else if isWindows then "g++" else "clang++"

/-- The compiler id actually used by the single retry of app.py lines
190-203: on Windows a different compiler, elsewhere the primary again. -/
def retryCompilerName (isWindows : Bool) (language : String) : String :=
  if isWindows then (if language = "c" then "clang" else "clang++")
  else primaryCompilerName isWindows language

/-! ## Output multiplexer workers (app.py lines 92-127) -/

/-- The reader-visible part of a session: the shared output queue and the
waiting flag. -/
structure ReaderState where
  queue : List Msg
  is_waiting_for_input : Bool
deriving DecidableEq

/-- One iteration of output_reader on a line read from stdout; the empty
string stands for an end-of-stream read, which enqueues nothing. -/
def output_readerStep (st : ReaderState) (line : String) : ReaderState :=
  if line = "" then st
  else
    { queue := st.queue ++ [⟨StreamTag.out, pyRstrip line⟩],
      is_waiting_for_input := st.is_waiting_for_input || keywordHit line }

/-- One iteration of error_reader on a line read from stderr. -/
def error_readerStep (st : ReaderState) (line : String) : ReaderState :=
  if line = "" then st
  else { st with queue := st.queue ++ [⟨StreamTag.err, pyRstrip line⟩] }

/-- The waiting flag produced by the stdout reader after processing the
given raw lines, starting from a fresh session. -/
def readerWaitingFlag (lines : List String) : Bool :=
  (lines.foldl output_readerStep { queue := [], is_waiting_for_input := false }).is_waiting_for_input

/-! ## Input feeder (app.py lines 129-150) -/

/-- Observable actions of one dequeue iteration of input_writer. -/
structure FeederStepResult where
  written : List String
  flushes : Nat
  breakLoop : Bool
deriving DecidableEq

/-- One dequeue iteration of input_writer: none is the poison-pill sentinel;
procExited is the proc.poll() observation at write time. -/
def input_writerStep (procExited : Bool) (v : Option String) : FeederStepResult :=
  match v with
  | none => ⟨[], 0, true⟩
  | some s =>
      if procExited then ⟨[], 0, false⟩
      else ⟨[s ++ "\n"], 1, false⟩

/-- A whole input_writer run over a sequence of dequeued values, each paired
with the process-exit observation at that moment.  Returns everything written
to the process input stream and whether the stream was closed at loop end
(app.py lines 147-150: always). -/
def input_writerRun : List (Bool × Option String) → List String × Bool
  | [] => ([], true)
  | (exited, v) :: rest =>
      let st := input_writerStep exited v
      if st.breakLoop then (st.written, true)
      else
        let r := input_writerRun rest
        (st.written ++ r.1, r.2)

/-! ## Toolchain lookup (CodeExecutor, app.py lines 39-78) -/

def get_file_extension (language : String) : String :=
  if language = "python" then ".py"
  else if language = "c" then ".c"
  else if language = "cpp" then ".cpp"
  else ".txt"

def get_executable_extension (isWindows : Bool) : String :=
  if isWindows then ".exe" else ".out"

/-- get_compile_command returns the primary compile argv, or none for
non-compiled languages. -/
def get_compile_command (isWindows : Bool) (filepath language output_path : String) :
    Option (List String) :=
  if language = "c" then
    some [(if isWindows then "gcc" else "clang"), filepath, "-o", output_path]
  else if language = "cpp" then
    some [(if isWindows then "g++" else "clang++"), filepath, "-o", output_path]
  else none

def get_run_command (isWindows : Bool) (filepath language : String)
    (executable_path : Option String) : List String :=
  if language = "python" then ["python", filepath]
  else if language = "c" ∨ language = "cpp" then [executable_path.getD ""]
  else []

/-! ## The start handler, execute_code (app.py lines 152-324) -/

/-- Outside-world observations for the compile step. -/
structure CompileEnv where
  primaryFound : Bool
  primaryExit : Int
  primaryStderr : String
  altFound : Bool
  altExit : Int
  altStderr : String
deriving DecidableEq

/-- Outside-world observations for one start request. -/
structure ExecEnv where
  tempDir : String
  compileEnv : CompileEnv
  launchOk : Bool
  launchErrMsg : String
  freshId : String
  initialMsgs : List Msg
  remainingMsgs : List Msg
  exitedInWindow : Bool
  readLines : List String
deriving DecidableEq

/-- The launch-and-warm-up phase of execute_code (app.py lines 220-321),
entered once compilation (if any) has succeeded.  temp_files holds every
scratch path allocated so far; compiles is the trace of compile commands
already run. -/
def launchPhase (isWindows : Bool) (reg : Registry) (code_file language : String)
    (executable_path : Option String) (temp_files : List String)
    (compiles : List (List String)) (env : ExecEnv) : StepResult :=
  let runArgv := get_run_command isWindows code_file language executable_path
  if ¬ env.launchOk then
    { resp := Resp.failure env.launchErrMsg 500,
      reg := reg,
      eff := { noEffects with
                 allocated := temp_files, cleaned := [temp_files],
                 compilesRun := compiles, launches := [runArgv] } }
  else
    let session_id := env.freshId
    let initial_output := outLines env.initialMsgs
    let initial_errors := errLines env.initialMsgs
    let session : ExecutionSession :=
      { session_id := session_id, temp_files := temp_files,
        outputQueue := env.remainingMsgs,
        is_waiting_for_input := readerWaitingFlag env.readLines,
        is_complete := false, final_output := "", error_output := "" }
    if env.exitedInWindow then
      { resp := Resp.completed (String.intercalate "\n" initial_output)
                  (String.intercalate "\n" initial_errors),
        reg := removeSession (insertSession reg session_id session) session_id,
        eff := { noEffects with
                   allocated := temp_files, cleaned := [temp_files],
                   sentinels := [session_id],
                   compilesRun := compiles, launches := [runArgv] } }
    else
      { resp := Resp.runningStart session_id (String.intercalate "\n" initial_output)
                  (String.intercalate "\n" initial_errors)
                  (session.is_waiting_for_input ||
                    (initial_output.isEmpty && initial_errors.isEmpty)),
        reg := insertSession reg session_id session,
        eff := { noEffects with
                   allocated := temp_files,
                   compilesRun := compiles, launches := [runArgv] } }

/-- The start handler execute_code (app.py lines 152-324). -/
def execute_code (isWindows : Bool) (reg : Registry) (code language0 : String)
    (env : ExecEnv) : StepResult :=
  let language := pyLower language0
  if ¬ (language = "python" ∨ language = "c" ∨ language = "cpp") then
    { resp := Resp.failure "Unsupported language" 400, reg := reg, eff := noEffects }
  else
    let temp_dir := env.tempDir
    let code_file := temp_dir ++ "/code" ++ get_file_extension language
    let temp_files := [temp_dir, code_file]
    if language = "c" ∨ language = "cpp" then
      let executable_path := temp_dir ++ "/program" ++ get_executable_extension isWindows
      let compile_cmd :=
        (get_compile_command isWindows code_file language executable_path).getD []
      if ¬ env.compileEnv.primaryFound then
        let compile_cmd2 :=
          if language = "c" ∧ isWindows then ["clang", code_file, "-o", executable_path]
          else if language = "cpp" ∧ isWindows then
            ["clang++", code_file, "-o", executable_path]
          else compile_cmd
        if ¬ env.compileEnv.altFound then
          { resp := Resp.failureDetails "Compiler not found"
                      "Please install a C/C++ compiler (gcc/g++ or clang/clang++)" 400,
            reg := reg,
            eff := { noEffects with
                       allocated := temp_files, cleaned := [temp_files],
                       compilesRun := [compile_cmd, compile_cmd2] } }
        else if env.compileEnv.altExit ≠ 0 then
          { resp := Resp.failureDetails "Compilation error" env.compileEnv.altStderr 400,
            reg := reg,
            eff := { noEffects with
                       allocated := temp_files, cleaned := [temp_files],
                       compilesRun := [compile_cmd, compile_cmd2] } }
        else
          launchPhase isWindows reg code_file language (some executable_path)
            (temp_files ++ [executable_path]) [compile_cmd, compile_cmd2] env
      else if env.compileEnv.primaryExit ≠ 0 then
        { resp := Resp.failureDetails "Compilation error" env.compileEnv.primaryStderr 400,
          reg := reg,
          eff := { noEffects with
                     allocated := temp_files, cleaned := [temp_files],
                     compilesRun := [compile_cmd] } }
      else
        launchPhase isWindows reg code_file language (some executable_path)
          (temp_files ++ [executable_path]) [compile_cmd] env
    else
      launchPhase isWindows reg code_file language none temp_files [] env

/-! ## The input handler, provide_input (app.py lines 326-416) -/

/-- Outside-world observations for one submit-input request. -/
structure InputEnv where
  exitedAtEntry : Bool
  windowMsgs : List Msg
  exitedAfterWindow : Bool
  remainingMsgs : List Msg
  queueAfter : List Msg
deriving DecidableEq

def provide_input (reg : Registry) (session_id user_input : String)
    (env : InputEnv) : StepResult :=
  match lookupSession reg session_id with
  | none => { resp := Resp.failure "Invalid session ID" 400, reg := reg, eff := noEffects }
  | some session =>
      if env.exitedAtEntry then
        { resp := Resp.completed "" "Process has already terminated",
          reg := removeSession reg session_id,
          eff := { noEffects with cleaned := [session.temp_files] } }
      else
        let output_lines := outLines env.windowMsgs
        let error_lines := errLines env.windowMsgs
        if env.exitedAfterWindow then
          let output_lines2 := output_lines ++ outLines env.remainingMsgs
          let error_lines2 := error_lines ++ errLines env.remainingMsgs
          { resp := Resp.completed (String.intercalate "\n" output_lines2)
                      (String.intercalate "\n" error_lines2),
            reg := removeSession reg session_id,
            eff := { noEffects with
                       sentinels := [session_id],
                       inputsSent := [(session_id, user_input)],
                       cleaned := [session.temp_files] } }
        else
          let is_waiting :=
            match output_lines.getLast? with
            | some last_line => keywordHit last_line
            | none => false
          { resp := Resp.runningStep (String.intercalate "\n" output_lines)
                      (String.intercalate "\n" error_lines) is_waiting,
            reg := updateSession reg session_id
                     { session with is_waiting_for_input := is_waiting,
                                    outputQueue := env.queueAfter },
            eff := { noEffects with inputsSent := [(session_id, user_input)] } }

/-- The recomputation of the waiting flag actually performed by provide_input
(app.py lines 401-406): the heuristic on the last captured stdout line. -/
def recomputeWaiting (output_lines : List String) : Bool :=
  match output_lines.getLast? with
  | some last_line => keywordHit last_line
  | none => false

/-- Modelled from the spec: recompute waiting_for_input from the heuristic
applied to the last NON-EMPTY captured line, as section 4.4 of the spec words
it for submit_input. -/
def specRecomputeWaiting (output_lines : List String) : Bool :=
  match (output_lines.filter fun l => !(l == "")).getLast? with
  | some last_line => keywordHit last_line
  | none => false

/-! ## The poll handler, check_status (app.py lines 418-464) -/

structure StatusEnv where
  exited : Bool
deriving DecidableEq

def check_status (reg : Registry) (session_id : String) (env : StatusEnv) : StepResult :=
  match lookupSession reg session_id with
  | none => { resp := Resp.failure "Invalid session ID" 400, reg := reg, eff := noEffects }
  | some session =>
      let output_lines := outLines session.outputQueue
      let error_lines := errLines session.outputQueue
      if env.exited then
        { resp := Resp.completed (String.intercalate "\n" output_lines)
                    (String.intercalate "\n" error_lines),
          reg := removeSession reg session_id,
          eff := { noEffects with
                     sentinels := [session_id], cleaned := [session.temp_files] } }
      else
        { resp := Resp.runningStep (String.intercalate "\n" output_lines)
                    (String.intercalate "\n" error_lines) session.is_waiting_for_input,
          reg := updateSession reg session_id { session with outputQueue := [] },
          eff := noEffects }

/-! ## The terminate handler, terminate_session (app.py lines 466-496) -/

structure TermEnv where
  alive : Bool
  gracefulExit : Bool
deriving DecidableEq

def terminate_session (isWindows : Bool) (reg : Registry) (session_id : String)
    (env : TermEnv) : StepResult :=
  match lookupSession reg session_id with
  | none => { resp := Resp.failure "Invalid session ID" 400, reg := reg, eff := noEffects }
  | some session =>
      let signals :=
        if env.alive then
          (if isWindows then ["terminate"] else ["SIGTERM"]) ++
            (if env.gracefulExit then [] else ["kill"])
        else []
      { resp := Resp.terminated,
        reg := removeSession reg session_id,
        eff := { noEffects with
                   signals := signals, sentinels := [session_id],
                   cleaned := [session.temp_files] } }

/-! ## The idle reaper, cleanup_old_sessions (app.py lines 499-513) -/

/-- One sweep of the reaper loop: exitedIds lists the session keys that
observed proc.poll() not None.  Note the source sends no input-queue
sentinel here. -/
def cleanup_old_sessions (reg : Registry) (exitedIds : List String) :
    Registry × Effects :=
  let sessions_to_remove := reg.filter fun p => exitedIds.contains p.1
  ( reg.filter fun p => !(exitedIds.contains p.1),
    { noEffects with cleaned := sessions_to_remove.map fun p => p.2.temp_files } )

/-! ## Operations and event sequences on the registry -/

/-- A boundary call that targets an existing session id. -/
inductive Op
  | submit (sid user_input : String) (env : InputEnv)
  | poll (sid : String) (env : StatusEnv)
  | term (isWindows : Bool) (sid : String) (env : TermEnv)

def opTarget : Op → String
  | Op.submit sid _ _ => sid
  | Op.poll sid _ => sid
  | Op.term _ sid _ => sid

def runOp (reg : Registry) : Op → StepResult
  | Op.submit sid user_input env => provide_input reg sid user_input env
  | Op.poll sid env => check_status reg sid env
  | Op.term w sid env => terminate_session w reg sid env

/-- Anything that can happen to the registry between two targeted calls. -/
inductive ServerEvent
  | call (o : Op)
  | reaperSweep (exitedIds : List String)

def applyEvent (reg : Registry) : ServerEvent → Registry
  | ServerEvent.call o => (runOp reg o).reg
  | ServerEvent.reaperSweep l => (cleanup_old_sessions reg l).1

def applyEvents (reg : Registry) (evs : List ServerEvent) : Registry :=
  evs.foldl applyEvent reg

/-! ## Concrete fixtures used by witnesses and counterexamples -/

/-- A registered session with a pending, undelivered stdout line. -/
def sampleSession : ExecutionSession :=
  { session_id := "s0", temp_files := ["/t/dir", "/t/dir/code.py"],
    outputQueue := [⟨StreamTag.out, "hello"⟩],
    is_waiting_for_input := false, is_complete := false,
    final_output := "", error_output := "" }

/-- A submit-input environment that observes the process already exited. -/
def exitedInputEnv : InputEnv :=
  { exitedAtEntry := true, windowMsgs := [], exitedAfterWindow := false,
    remainingMsgs := [], queueAfter := [] }

/-- A start environment: python launch succeeds, silent warm-up window. -/
def silentStartEnv : ExecEnv :=
  { tempDir := "/t", compileEnv := ⟨true, 0, "", true, 0, ""⟩,
    launchOk := true, launchErrMsg := "", freshId := "id0",
    initialMsgs := [], remainingMsgs := [], exitedInWindow := false,
    readLines := [] }

/-- A start environment where both compiler lookups raise file-not-found. -/
def noCompilerEnv : ExecEnv :=
  { tempDir := "/t", compileEnv := ⟨false, 0, "", false, 0, ""⟩,
    launchOk := true, launchErrMsg := "", freshId := "id0",
    initialMsgs := [], remainingMsgs := [], exitedInWindow := false,
    readLines := [] }

/-- A submit-input drain whose last captured stdout line is empty, while an
earlier line matches the heuristic. -/
def blankTailInputEnv : InputEnv :=
  { exitedAtEntry := false,
    windowMsgs := [⟨StreamTag.out, "Enter your name:"⟩, ⟨StreamTag.out, ""⟩],
    exitedAfterWindow := false, remainingMsgs := [], queueAfter := [] }


/-! ## Registry lemmas -/

theorem lookup_remove (reg : Registry) (sid' sid : String) :
    lookupSession (removeSession reg sid') sid =
      if sid = sid' then none else lookupSession reg sid := by
  induction reg with
  | nil => simp [removeSession, lookupSession]
  | cons p rest ih =>
      obtain ⟨k, s⟩ := p
      by_cases hk : k = sid' <;> by_cases hks : k = sid <;>
        simp_all [removeSession, lookupSession]

theorem lookup_remove_self (reg : Registry) (sid : String) :
    lookupSession (removeSession reg sid) sid = none := by
  simp [lookup_remove]

theorem lookup_update (reg : Registry) (sid' sid : String) (s : ExecutionSession) :
    lookupSession (updateSession reg sid' s) sid =
      if sid = sid' then (lookupSession reg sid).map (fun _ => s)
      else lookupSession reg sid := by
  induction reg with
  | nil => simp [updateSession, lookupSession]
  | cons p rest ih =>
      obtain ⟨k, old⟩ := p
      by_cases hk : k = sid' <;> by_cases hks : k = sid <;>
        by_cases hss : sid = sid' <;>
        simp_all [updateSession, lookupSession]

theorem lookup_sweep_filter (reg : Registry) (l : List String) (sid : String) :
    lookupSession (reg.filter fun q => !(l.contains q.1)) sid =
      if l.contains sid then none else lookupSession reg sid := by
  induction reg with
  | nil => simp [lookupSession]
  | cons q rest ih =>
      obtain ⟨k, s⟩ := q
      by_cases hp : l.contains k <;> by_cases hks : k = sid <;>
        simp_all [List.filter_cons, lookupSession]

theorem lookup_mem (reg : Registry) (sid : String) (s : ExecutionSession)
    (h : lookupSession reg sid = some s) : (sid, s) ∈ reg := by
  induction reg with
  | nil => simp [lookupSession] at h
  | cons q rest ih =>
      obtain ⟨k, t⟩ := q
      by_cases hk : k = sid
      · subst hk
        simp [lookupSession] at h
        subst h
        exact List.mem_cons_self _ _
      · simp [lookupSession, hk] at h
        exact List.mem_cons_of_mem _ (ih h)

/-! ## Finalization removes the id; absence is preserved and observed -/

theorem provide_input_final_removes (reg : Registry) (sid input : String) (env : InputEnv)
    (hf : respFinal (provide_input reg sid input env).resp = true) :
    lookupSession (provide_input reg sid input env).reg sid = none := by
  cases hl : lookupSession reg sid with
  | none => simp [provide_input, hl, respFinal] at hf
  | some session =>
      by_cases he : env.exitedAtEntry
      · simp [provide_input, hl, he, lookup_remove_self]
      · by_cases hw : env.exitedAfterWindow
        · simp [provide_input, hl, he, hw, lookup_remove_self]
        · simp [provide_input, hl, he, hw, respFinal] at hf

theorem check_status_final_removes (reg : Registry) (sid : String) (env : StatusEnv)
    (hf : respFinal (check_status reg sid env).resp = true) :
    lookupSession (check_status reg sid env).reg sid = none := by
  cases hl : lookupSession reg sid with
  | none => simp [check_status, hl, respFinal] at hf
  | some session =>
      by_cases hx : env.exited
      · simp [check_status, hl, hx, lookup_remove_self]
      · simp [check_status, hl, hx, respFinal] at hf

theorem terminate_session_final_removes (isWindows : Bool) (reg : Registry)
    (sid : String) (env : TermEnv)
    (hf : respFinal (terminate_session isWindows reg sid env).resp = true) :
    lookupSession (terminate_session isWindows reg sid env).reg sid = none := by
  cases hl : lookupSession reg sid with
  | none => simp [terminate_session, hl, respFinal] at hf
  | some session => simp [terminate_session, hl, lookup_remove_self]

theorem runOp_final_removes (reg : Registry) (op : Op)
    (hf : respFinal (runOp reg op).resp = true) :
    lookupSession (runOp reg op).reg (opTarget op) = none := by
  cases op with
  | submit sid input env => exact provide_input_final_removes reg sid input env hf
  | poll sid env => exact check_status_final_removes reg sid env hf
  | term w sid env => exact terminate_session_final_removes w reg sid env hf

theorem runOp_preserves_absent (reg : Registry) (op : Op) (sid : String)
    (h : lookupSession reg sid = none) :
    lookupSession (runOp reg op).reg sid = none := by
  cases op with
  | submit t input env =>
      cases hl : lookupSession reg t with
      | none => simpa [runOp, provide_input, hl] using h
      | some session =>
          by_cases he : env.exitedAtEntry
          · simp [runOp, provide_input, hl, he, lookup_remove, h]
          · by_cases hw : env.exitedAfterWindow
            · simp [runOp, provide_input, hl, he, hw, lookup_remove, h]
            · simp [runOp, provide_input, hl, he, hw, lookup_update, h]
  | poll t env =>
      cases hl : lookupSession reg t with
      | none => simpa [runOp, check_status, hl] using h
      | some session =>
          by_cases hx : env.exited
          · simp [runOp, check_status, hl, hx, lookup_remove, h]
          · simp [runOp, check_status, hl, hx, lookup_update, h]
  | term w t env =>
      cases hl : lookupSession reg t with
      | none => simpa [runOp, terminate_session, hl] using h
      | some session => simp [runOp, terminate_session, hl, lookup_remove, h]

theorem lookup_sweep (reg : Registry) (l : List String) (sid : String) :
    lookupSession (cleanup_old_sessions reg l).1 sid =
      if l.contains sid then none else lookupSession reg sid := by
  show lookupSession (reg.filter fun q => !(l.contains q.1)) sid = _
  exact lookup_sweep_filter reg l sid

theorem applyEvent_preserves_absent (reg : Registry) (ev : ServerEvent) (sid : String)
    (h : lookupSession reg sid = none) :
    lookupSession (applyEvent reg ev) sid = none := by
  cases ev with
  | call o => exact runOp_preserves_absent reg o sid h
  | reaperSweep l =>
      simp only [applyEvent]
      rw [lookup_sweep]
      simp [h]

theorem applyEvents_preserves_absent (reg : Registry) (evs : List ServerEvent)
    (sid : String) (h : lookupSession reg sid = none) :
    lookupSession (applyEvents reg evs) sid = none := by
  induction evs generalizing reg with
  | nil => simpa [applyEvents] using h
  | cons ev rest ih =>
      simp only [applyEvents, List.foldl_cons]
      exact ih (applyEvent reg ev) (applyEvent_preserves_absent reg ev sid h)

theorem runOp_absent (reg : Registry) (op : Op)
    (h : lookupSession reg (opTarget op) = none) :
    (runOp reg op).resp = Resp.failure "Invalid session ID" 400 := by
  cases op with
  | submit t input env =>
      simp only [opTarget] at h
      simp [runOp, provide_input, h]
  | poll t env =>
      simp only [opTarget] at h
      simp [runOp, check_status, h]
  | term w t env =>
      simp only [opTarget] at h
      simp [runOp, terminate_session, h]

/-! ## Claim theorems -/

/-- C1: for every session id, finalization happens at most once: once a
submit-input, poll-status or terminate call has reported status COMPLETED or
TERMINATED for that id, every subsequent submit-input, poll-status or
terminate call with the same id, after any interleaving of further calls and
reaper sweeps, fails with the UnknownSession error (the id is absent from
the registry). -/
theorem C1_finalize_at_most_once (reg : Registry) (op : Op)
    (hf : respFinal (runOp reg op).resp = true)
    (evs : List ServerEvent) (op2 : Op) (ht : opTarget op2 = opTarget op) :
    (runOp (applyEvents (runOp reg op).reg evs) op2).resp =
      Resp.failure "Invalid session ID" 400 := by
  apply runOp_absent
  rw [ht]
  exact applyEvents_preserves_absent _ evs _ (runOp_final_removes reg op hf)

/-- Witness for C1: a poll that reports COMPLETED, followed by a terminate on
the same id, which fails with the UnknownSession error. -/
theorem C1_witness :
    respFinal (runOp [("s0", sampleSession)] (Op.poll "s0" ⟨true⟩)).resp = true ∧
    (runOp (applyEvents (runOp [("s0", sampleSession)] (Op.poll "s0" ⟨true⟩)).reg [])
        (Op.term false "s0" ⟨false, false⟩)).resp =
      Resp.failure "Invalid session ID" 400 :=
  ⟨by decide,
   C1_finalize_at_most_once [("s0", sampleSession)] (Op.poll "s0" ⟨true⟩)
     (by decide) [] (Op.term false "s0" ⟨false, false⟩) rfl⟩

/-- C2: counterexample.  The claim says every finalization path sends the
input feeder its close sentinel, naming in particular the finalization done
when submit-input finds the process already exited and the one done by the
idle reaper.  At this concrete input both paths do finalize (the temp files
are released and the id is removed from the registry) yet neither sends any
sentinel: the sentinel traces are empty. -/
theorem C2_counterexample :
    (provide_input [("s0", sampleSession)] "s0" "x" exitedInputEnv).resp =
        Resp.completed "" "Process has already terminated" ∧
    lookupSession (provide_input [("s0", sampleSession)] "s0" "x" exitedInputEnv).reg "s0" =
        none ∧
    (provide_input [("s0", sampleSession)] "s0" "x" exitedInputEnv).eff.cleaned =
        [sampleSession.temp_files] ∧
    (provide_input [("s0", sampleSession)] "s0" "x" exitedInputEnv).eff.sentinels = [] ∧
    (cleanup_old_sessions [("s0", sampleSession)] ["s0"]).1 = [] ∧
    (cleanup_old_sessions [("s0", sampleSession)] ["s0"]).2.cleaned =
        [sampleSession.temp_files] ∧
    (cleanup_old_sessions [("s0", sampleSession)] ["s0"]).2.sentinels = [] := by
  decide

/-- C2 (amended): every finalization path releases the session's scratch
resources and removes the id from the registry; the drain-completion path of
submit-input, poll-status and terminate also send the feeder its close
sentinel, but the finalization triggered by submit-input finding the process
already exited and the finalization performed by the idle reaper do not send
the sentinel. -/
theorem C2_amended (reg : Registry) (sid input : String) (session : ExecutionSession)
    (envI : InputEnv) (envS : StatusEnv) (envT : TermEnv) (isWindows : Bool)
    (exitedIds : List String)
    (h : lookupSession reg sid = some session) :
    ((provide_input reg sid input envI).eff.sentinels =
        (if envI.exitedAtEntry then []
         else if envI.exitedAfterWindow then [sid] else [])) ∧
    ((provide_input reg sid input envI).eff.cleaned =
        (if envI.exitedAtEntry then [session.temp_files]
         else if envI.exitedAfterWindow then [session.temp_files] else [])) ∧
    ((lookupSession (provide_input reg sid input envI).reg sid).isSome =
        (!envI.exitedAtEntry && !envI.exitedAfterWindow)) ∧
    ((check_status reg sid envS).eff.sentinels = (if envS.exited then [sid] else [])) ∧
    ((check_status reg sid envS).eff.cleaned =
        (if envS.exited then [session.temp_files] else [])) ∧
    ((lookupSession (check_status reg sid envS).reg sid).isSome = !envS.exited) ∧
    ((terminate_session isWindows reg sid envT).eff.sentinels = [sid]) ∧
    ((terminate_session isWindows reg sid envT).eff.cleaned = [session.temp_files]) ∧
    (lookupSession (terminate_session isWindows reg sid envT).reg sid = none) ∧
    ((cleanup_old_sessions reg exitedIds).2.sentinels = []) ∧
    (exitedIds.contains sid = true →
      session.temp_files ∈ (cleanup_old_sessions reg exitedIds).2.cleaned ∧
      lookupSession (cleanup_old_sessions reg exitedIds).1 sid = none) := by
  refine ⟨?_, ?_, ?_, ?_, ?_, ?_, ?_, ?_, ?_, ?_, ?_⟩
  · by_cases he : envI.exitedAtEntry <;> by_cases hw : envI.exitedAfterWindow <;>
      simp [provide_input, h, he, hw, noEffects]
  · by_cases he : envI.exitedAtEntry <;> by_cases hw : envI.exitedAfterWindow <;>
      simp [provide_input, h, he, hw, noEffects]
  · by_cases he : envI.exitedAtEntry <;> by_cases hw : envI.exitedAfterWindow <;>
      simp [provide_input, h, he, hw, lookup_remove_self, lookup_update]
  · by_cases hx : envS.exited <;> simp [check_status, h, hx, noEffects]
  · by_cases hx : envS.exited <;> simp [check_status, h, hx, noEffects]
  · by_cases hx : envS.exited <;>
      simp [check_status, h, hx, lookup_remove_self, lookup_update]
  · simp [terminate_session, h, noEffects]
  · simp [terminate_session, h, noEffects]
  · simp [terminate_session, h, lookup_remove_self]
  · rfl
  · intro hc
    refine ⟨?_, ?_⟩
    · have hm := lookup_mem reg sid session h
      show session.temp_files ∈
        ((reg.filter fun p => exitedIds.contains p.1).map fun p => p.2.temp_files)
      exact List.mem_map.mpr ⟨(sid, session), List.mem_filter.mpr ⟨hm, hc⟩, rfl⟩
    · rw [lookup_sweep, if_pos hc]

/-- Witness for C2 (amended) at a concrete single-session registry. -/
theorem C2_amended_witness :
    (provide_input [("s0", sampleSession)] "s0" "x" exitedInputEnv).eff.sentinels = [] ∧
    sampleSession.temp_files ∈
      (cleanup_old_sessions [("s0", sampleSession)] ["s0"]).2.cleaned ∧
    (terminate_session false [("s0", sampleSession)] "s0" ⟨true, true⟩).eff.sentinels =
      ["s0"] := by
  obtain ⟨h1, h2, h3, h4, h5, h6, h7, h8, h9, h10, h11⟩ :=
    C2_amended [("s0", sampleSession)] "s0" "x" sampleSession exitedInputEnv
      ⟨false⟩ ⟨true, true⟩ false ["s0"] rfl
  exact ⟨h1, (h11 rfl).1, h7⟩

/-- C6: poll-status on a registered session performs one full non-blocking
drain of the output queue: the response text is exactly the queued stdout and
stderr content.  If the process exited it finalizes (close sentinel, cleanup,
removal) and reports COMPLETED; otherwise it reports RUNNING with the
existing waiting flag, which stays unchanged in the stored session. -/
theorem C6_poll_frame (reg : Registry) (sid : String) (session : ExecutionSession)
    (env : StatusEnv) (h : lookupSession reg sid = some session) :
    ((check_status reg sid env).resp =
      (if env.exited then
         Resp.completed (String.intercalate "\n" (outLines session.outputQueue))
           (String.intercalate "\n" (errLines session.outputQueue))
       else
         Resp.runningStep (String.intercalate "\n" (outLines session.outputQueue))
           (String.intercalate "\n" (errLines session.outputQueue))
           session.is_waiting_for_input)) ∧
    (lookupSession (check_status reg sid env).reg sid =
      (if env.exited then none else some { session with outputQueue := [] })) ∧
    ((check_status reg sid env).eff.sentinels = (if env.exited then [sid] else [])) ∧
    ((check_status reg sid env).eff.cleaned =
      (if env.exited then [session.temp_files] else [])) := by
  by_cases hx : env.exited <;>
    simp [check_status, h, hx, lookup_remove_self, lookup_update, noEffects]

/-- Witness for C6: poll on a running session returns the queued line and the
stored waiting flag, and empties the stored queue without touching the flag. -/
theorem C6_witness :
    ((check_status [("s0", sampleSession)] "s0" ⟨false⟩).resp =
      (if (false : Bool) then
         Resp.completed (String.intercalate "\n" (outLines sampleSession.outputQueue))
           (String.intercalate "\n" (errLines sampleSession.outputQueue))
       else
         Resp.runningStep (String.intercalate "\n" (outLines sampleSession.outputQueue))
           (String.intercalate "\n" (errLines sampleSession.outputQueue))
           sampleSession.is_waiting_for_input)) ∧
    (lookupSession (check_status [("s0", sampleSession)] "s0" ⟨false⟩).reg "s0" =
      (if (false : Bool) then none
       else some { sampleSession with outputQueue := [] })) ∧
    ((check_status [("s0", sampleSession)] "s0" ⟨false⟩).eff.sentinels =
      (if (false : Bool) then ["s0"] else [])) ∧
    ((check_status [("s0", sampleSession)] "s0" ⟨false⟩).eff.cleaned =
      (if (false : Bool) then [sampleSession.temp_files] else [])) :=
  C6_poll_frame [("s0", sampleSession)] "s0" sampleSession ⟨false⟩ rfl

/-- C7: for every nonempty stdout line, the output reader sets the waiting
flag to true exactly when the lowercased line contains one of the substrings
input, enter, colon, question mark (otherwise the flag keeps its old value),
and the stderr reader never changes the flag. -/
theorem C7_heuristic (st : ReaderState) (line : String) (h : line ≠ "") :
    ((output_readerStep st line).is_waiting_for_input =
      (st.is_waiting_for_input || keywordHit line)) ∧
    (st.is_waiting_for_input = false →
      ((output_readerStep st line).is_waiting_for_input = true ↔
        keywordHit line = true)) ∧
    ((error_readerStep st line).is_waiting_for_input = st.is_waiting_for_input) := by
  refine ⟨?_, ?_, ?_⟩
  · simp [output_readerStep, h]
  · intro hfl
    simp [output_readerStep, h, hfl]
  · simp [error_readerStep, h]

/-- Witness for C7 on a concrete prompt line. -/
theorem C7_witness :
    ((output_readerStep ⟨[], false⟩ "Enter your name: ").is_waiting_for_input =
      (false || keywordHit "Enter your name: ")) ∧
    ((false : Bool) = false →
      ((output_readerStep ⟨[], false⟩ "Enter your name: ").is_waiting_for_input = true ↔
        keywordHit "Enter your name: " = true)) ∧
    ((error_readerStep ⟨[], false⟩ "Enter your name: ").is_waiting_for_input = false) :=
  C7_heuristic ⟨[], false⟩ "Enter your name: " (by decide)

/-- C9: each value dequeued by the input feeder is dropped silently when the
process has exited, and otherwise is written followed by one line terminator
and flushed immediately; the sentinel ends the loop without writing, and at
loop end the input stream is always closed. -/
theorem C9_input_writer (s : String) (b : Bool) (items : List (Bool × Option String)) :
    input_writerStep b none = ⟨[], 0, true⟩ ∧
    input_writerStep true (some s) = ⟨[], 0, false⟩ ∧
    input_writerStep false (some s) = ⟨[s ++ "\n"], 1, false⟩ ∧
    (input_writerRun items).2 = true := by
  refine ⟨rfl, rfl, rfl, ?_⟩
  induction items with
  | nil => rfl
  | cons p rest ih =>
      obtain ⟨ex, v⟩ := p
      by_cases hb : (input_writerStep ex v).breakLoop <;>
        simp [input_writerRun, hb, ih]

/-- C10: submit-input on a registered session whose process already exited
reports COMPLETED with an empty output field and the fixed error text, removes
the session, and forwards no input; the queued undelivered output (arbitrary
in the session argument) never reaches the response. -/
theorem C10_submit_after_exit (reg : Registry) (sid input : String)
    (session : ExecutionSession) (env : InputEnv)
    (h : lookupSession reg sid = some session) (hx : env.exitedAtEntry = true) :
    (provide_input reg sid input env).resp =
      Resp.completed "" "Process has already terminated" ∧
    lookupSession (provide_input reg sid input env).reg sid = none ∧
    (provide_input reg sid input env).eff.inputsSent = [] := by
  simp [provide_input, h, hx, lookup_remove_self, noEffects]

/-- Witness for C10: the sample session has a queued, undelivered stdout
line, yet the response output is empty. -/
theorem C10_witness :
    (provide_input [("s0", sampleSession)] "s0" "ignored" exitedInputEnv).resp =
      Resp.completed "" "Process has already terminated" ∧
    lookupSession
        (provide_input [("s0", sampleSession)] "s0" "ignored" exitedInputEnv).reg "s0" =
      none ∧
    (provide_input [("s0", sampleSession)] "s0" "ignored" exitedInputEnv).eff.inputsSent =
      [] :=
  C10_submit_after_exit [("s0", sampleSession)] "s0" "ignored" sampleSession
    exitedInputEnv rfl rfl

/-! ## Start-handler lemmas and remaining claims -/

theorem launchPhase_running_waiting {isWindows : Bool} {reg : Registry}
    {code_file language : String} {exe : Option String} {temp_files : List String}
    {compiles : List (List String)} {env : ExecEnv} {sid out errt : String} {w : Bool}
    (h : (launchPhase isWindows reg code_file language exe temp_files compiles env).resp =
      Resp.runningStart sid out errt w) :
    w = (readerWaitingFlag env.readLines ||
      ((outLines env.initialMsgs).isEmpty && (errLines env.initialMsgs).isEmpty)) := by
  by_cases hl : env.launchOk
  · by_cases hx : env.exitedInWindow
    · simp [launchPhase, hl, hx] at h
    · simp [launchPhase, hl, hx] at h
      obtain ⟨-, -, -, h4⟩ := h
      subst h4
      simp
  · simp [launchPhase, hl] at h

theorem launchPhase_compilesRun (isWindows : Bool) (reg : Registry)
    (code_file language : String) (exe : Option String) (temp_files : List String)
    (compiles : List (List String)) (env : ExecEnv) :
    (launchPhase isWindows reg code_file language exe temp_files compiles
      env).eff.compilesRun = compiles := by
  by_cases hl : env.launchOk
  · by_cases hx : env.exitedInWindow <;> simp [launchPhase, hl, hx, noEffects]
  · simp [launchPhase, hl, noEffects]

theorem launchPhase_notMissing (isWindows : Bool) (reg : Registry)
    (code_file language : String) (exe : Option String) (temp_files : List String)
    (compiles : List (List String)) (env : ExecEnv) :
    isToolchainMissing
      (launchPhase isWindows reg code_file language exe temp_files compiles env).resp =
      false := by
  by_cases hl : env.launchOk
  · by_cases hx : env.exitedInWindow <;> simp [launchPhase, hl, hx, isToolchainMissing]
  · simp [launchPhase, hl, isToolchainMissing]

theorem launchPhase_failure_frame {isWindows : Bool} {reg : Registry}
    {code_file language : String} {exe : Option String} {temp_files : List String}
    {compiles : List (List String)} {env : ExecEnv}
    (h : isFailureResp
      (launchPhase isWindows reg code_file language exe temp_files compiles env).resp =
      true) :
    (launchPhase isWindows reg code_file language exe temp_files compiles env).reg = reg ∧
    ((launchPhase isWindows reg code_file language exe temp_files compiles
        env).eff.cleaned).flatten =
      (launchPhase isWindows reg code_file language exe temp_files compiles
        env).eff.allocated := by
  by_cases hl : env.launchOk
  · by_cases hx : env.exitedInWindow <;>
      simp [launchPhase, hl, hx, isFailureResp] at h
  · simp [launchPhase, hl, noEffects, List.flatten]

/-- C3: for every start request whose process is still running after the
warm-up window (a RUNNING report), the reported waiting_for_input is true
whenever the keyword heuristic fired on the stdout lines read so far, and
also whenever the warm-up window captured no stdout text and no stderr text
at all (silence implies waiting_for_input = true). -/
theorem C3_start_waiting (isWindows : Bool) (reg : Registry) (code lang : String)
    (env : ExecEnv) (sid out errt : String) (w : Bool)
    (h : (execute_code isWindows reg code lang env).resp =
      Resp.runningStart sid out errt w) :
    (readerWaitingFlag env.readLines = true → w = true) ∧
    (outLines env.initialMsgs = [] → errLines env.initialMsgs = [] → w = true) := by
  have hw : w = (readerWaitingFlag env.readLines ||
      ((outLines env.initialMsgs).isEmpty && (errLines env.initialMsgs).isEmpty)) := by
    by_cases c1 : pyLower lang = "python" ∨ pyLower lang = "c" ∨ pyLower lang = "cpp"
    · by_cases c2 : pyLower lang = "c" ∨ pyLower lang = "cpp"
      · by_cases c3 : env.compileEnv.primaryFound
        · by_cases c6 : env.compileEnv.primaryExit = 0
          · simp only [execute_code] at h
            simp [c1, c2, c3, c6] at h
            exact launchPhase_running_waiting h
          · simp [execute_code, c1, c2, c3, c6] at h
        · by_cases c4 : env.compileEnv.altFound
          · by_cases c5 : env.compileEnv.altExit = 0
            · simp only [execute_code] at h
              simp [c1, c2, c3, c4, c5] at h
              exact launchPhase_running_waiting h
            · simp [execute_code, c1, c2, c3, c4, c5] at h
          · simp [execute_code, c1, c2, c3, c4] at h
      · have hpy : pyLower lang = "python" := c1.resolve_right c2
        simp only [execute_code] at h
        simp [c1, c2, hpy] at h
        exact launchPhase_running_waiting h
    · simp [execute_code, c1] at h
  subst hw
  constructor
  · intro h1
    simp [h1]
  · intro h1 h2
    simp [h1, h2]

/-- Witness for C3: a silent python start is reported RUNNING with
waiting_for_input = true. -/
theorem C3_witness :
    (readerWaitingFlag silentStartEnv.readLines = true → (true : Bool) = true) ∧
    (outLines silentStartEnv.initialMsgs = [] →
      errLines silentStartEnv.initialMsgs = [] → (true : Bool) = true) :=
  C3_start_waiting false [] "print(1)" "python" silentStartEnv "id0" "" "" true
    (by decide)

/-- C4: counterexample.  The claim says submit-input recomputes
waiting_for_input by applying the heuristic to the last NON-EMPTY captured
line.  The reader pushes empty strings for blank stdout lines, and the code
applies the heuristic to the last captured line whether empty or not: here
the drained lines are a prompt followed by a blank line, the code reports
waiting_for_input = false, while the claimed recomputation yields true. -/
theorem C4_counterexample :
    (provide_input [("s0", sampleSession)] "s0" "John" blankTailInputEnv).resp =
      Resp.runningStep "Enter your name:\n" "" false ∧
    specRecomputeWaiting (outLines blankTailInputEnv.windowMsgs) = true := by
  decide

/-- C4 (amended): for every submit-input call that drains output and finds
the process still running, the reported waiting_for_input is recomputed from
scratch as the heuristic applied to the last captured stdout line of the
drained output (which may be an empty line); it is not left at its previous
value, and the stored session flag is overwritten with the same value. -/
theorem C4_amended (reg : Registry) (sid input : String) (session : ExecutionSession)
    (env : InputEnv) (h : lookupSession reg sid = some session)
    (h1 : env.exitedAtEntry = false) (h2 : env.exitedAfterWindow = false) :
    (provide_input reg sid input env).resp =
      Resp.runningStep (String.intercalate "\n" (outLines env.windowMsgs))
        (String.intercalate "\n" (errLines env.windowMsgs))
        (recomputeWaiting (outLines env.windowMsgs)) ∧
    lookupSession (provide_input reg sid input env).reg sid =
      some { session with
               is_waiting_for_input := recomputeWaiting (outLines env.windowMsgs),
               outputQueue := env.queueAfter } := by
  constructor
  · simp [provide_input, h, h1, h2, recomputeWaiting]
  · simp [provide_input, h, h1, h2, recomputeWaiting, lookup_update]

/-- Witness for C4 (amended) at the blank-tailed drain. -/
theorem C4_amended_witness :
    (provide_input [("s0", sampleSession)] "s0" "John" blankTailInputEnv).resp =
      Resp.runningStep
        (String.intercalate "\n" (outLines blankTailInputEnv.windowMsgs))
        (String.intercalate "\n" (errLines blankTailInputEnv.windowMsgs))
        (recomputeWaiting (outLines blankTailInputEnv.windowMsgs)) ∧
    lookupSession
        (provide_input [("s0", sampleSession)] "s0" "John" blankTailInputEnv).reg "s0" =
      some { sampleSession with
               is_waiting_for_input :=
                 recomputeWaiting (outLines blankTailInputEnv.windowMsgs),
               outputQueue := blankTailInputEnv.queueAfter } :=
  C4_amended [("s0", sampleSession)] "s0" "John" sampleSession blankTailInputEnv
    rfl rfl rfl

/-- C5: counterexample.  On a non-Windows host with language c, the primary
compiler clang is not found, and the retry runs the very same clang command
again rather than a designated different compiler, before reporting
ToolchainMissing.  This refutes the claim that the retry uses a different
compiler than the primary. -/
theorem C5_counterexample :
    (execute_code false [] "int main" "c" noCompilerEnv).eff.compilesRun =
      [["clang", "/t/code.c", "-o", "/t/program.out"],
       ["clang", "/t/code.c", "-o", "/t/program.out"]] ∧
    isToolchainMissing (execute_code false [] "int main" "c" noCompilerEnv).resp =
      true := by
  decide

/-- C5 (amended): for every compiled-language start request whose primary
compiler raises file-not-found, the compile is retried exactly once; on
Windows the retry names a different compiler (clang for c, clang++ for cpp),
on other hosts it reruns the same primary compiler; the request fails with
ToolchainMissing exactly when the retry also raises file-not-found. -/
theorem C5_amended (isWindows : Bool) (reg : Registry) (code lang : String)
    (env : ExecEnv) (hl : pyLower lang = "c" ∨ pyLower lang = "cpp")
    (hp : env.compileEnv.primaryFound = false) :
    ((execute_code isWindows reg code lang env).eff.compilesRun.map
        fun cmd => cmd.head?) =
      [some (primaryCompilerName isWindows (pyLower lang)),
       some (retryCompilerName isWindows (pyLower lang))] ∧
    isToolchainMissing (execute_code isWindows reg code lang env).resp =
      !env.compileEnv.altFound := by
  rcases hl with hc | hc <;> cases isWindows <;>
    by_cases ha : env.compileEnv.altFound <;>
    by_cases hz : env.compileEnv.altExit = 0 <;>
      first
        | (simp [execute_code, hc, hp, ha, hz, get_compile_command,
                 primaryCompilerName, retryCompilerName,
                 launchPhase_compilesRun, launchPhase_notMissing]
           done)
        | (simp [execute_code, hc, hp, ha, hz, get_compile_command,
                 primaryCompilerName, retryCompilerName, isToolchainMissing])

/-- Witness for C5 (amended): concrete non-Windows c request with both
compiler lookups failing. -/
theorem C5_amended_witness :
    ((execute_code false [] "int main" "c" noCompilerEnv).eff.compilesRun.map
        fun cmd => cmd.head?) =
      [some (primaryCompilerName false (pyLower "c")),
       some (retryCompilerName false (pyLower "c"))] ∧
    isToolchainMissing (execute_code false [] "int main" "c" noCompilerEnv).resp =
      !noCompilerEnv.compileEnv.altFound :=
  C5_amended false [] "int main" "c" noCompilerEnv (Or.inl (by decide)) rfl

/-- C8: every start request that fails (unsupported language, toolchain
missing, compile failure, or launch failure) leaves the registry unchanged,
and the cleanup calls it performed release exactly the scratch resources it
had allocated before failing. -/
theorem C8_failure_frame (isWindows : Bool) (reg : Registry) (code lang : String)
    (env : ExecEnv)
    (h : isFailureResp (execute_code isWindows reg code lang env).resp = true) :
    (execute_code isWindows reg code lang env).reg = reg ∧
    ((execute_code isWindows reg code lang env).eff.cleaned).flatten =
      (execute_code isWindows reg code lang env).eff.allocated := by
  by_cases c1 : pyLower lang = "python" ∨ pyLower lang = "c" ∨ pyLower lang = "cpp"
  · by_cases c2 : pyLower lang = "c" ∨ pyLower lang = "cpp"
    · by_cases c3 : env.compileEnv.primaryFound
      · by_cases c6 : env.compileEnv.primaryExit = 0
        · simp only [execute_code] at h ⊢
          simp [c1, c2, c3, c6] at h ⊢
          exact launchPhase_failure_frame h
        · simp [execute_code, c1, c2, c3, c6, noEffects]
      · by_cases c4 : env.compileEnv.altFound
        · by_cases c5 : env.compileEnv.altExit = 0
          · simp only [execute_code] at h ⊢
            simp [c1, c2, c3, c4, c5] at h ⊢
            exact launchPhase_failure_frame h
          · simp [execute_code, c1, c2, c3, c4, c5, noEffects]
        · simp [execute_code, c1, c2, c3, c4, noEffects]
    · have hpy : pyLower lang = "python" := c1.resolve_right c2
      simp only [execute_code] at h ⊢
      simp [c1, c2, hpy] at h ⊢
      exact launchPhase_failure_frame h
  · simp [execute_code, c1, noEffects]

/-- Witness for C8: an unsupported-language request leaves the empty registry
empty and allocated nothing. -/
theorem C8_witness :
    (execute_code false [] "x" "java" silentStartEnv).reg = [] ∧
    ((execute_code false [] "x" "java" silentStartEnv).eff.cleaned).flatten =
      (execute_code false [] "x" "java" silentStartEnv).eff.allocated :=
  C8_failure_frame false [] "x" "java" silentStartEnv (by decide)
